import Mathlib

/-!
Shallow embedding of the request-observability pipeline of `src/app/main.py`
(a Flask service with JSON structured logging, Prometheus metrics and
OpenTelemetry tracing), together with proofs of the specified properties.

The embedding models:
  * the JSON log formatter configured on line 93
    (`jsonlogger.JsonFormatter` with format string
    `%(asctime)s %(levelname)s %(message)s`), whose output object carries the
    required fields `asctime`, `levelname`, `message` followed by the
    per-call `extra` fields;
  * the `after_request` hook `log_request` (lines 142-179);
  * the two route handlers `hello_world` (lines 189-197) and
    `trigger_error` (lines 199-212);
  * the hex rendering `format(trace_id, &032x&)` used on line 166
    (the Lean function `format032x`);
  * the startup port parsing `int(os.environ.get(&PORT&, 8080))` on line 218.

Host identity (`os.uname()[1]`) is modelled as an indexed source
`uname : Nat -> String` giving the value returned by the k-th resolution
since process start, so that caching behaviour is observable; the ambient
OpenTelemetry trace context is modelled as a 128-bit-intended natural
number field `trace_id` (0 is the invalid / "no active context" sentinel,
as in the OpenTelemetry API).
-/

namespace App

/-- Decidable equality for `Except`, so that concrete runs of the fallible
models can be evaluated by `decide`. -/
instance {ε α : Type} [DecidableEq ε] [DecidableEq α] : DecidableEq (Except ε α) := fun x y =>
  match x, y with
  | Except.ok a, Except.ok b =>
    if h : a = b then isTrue (by rw [h]) else isFalse (fun hc => by cases hc; exact h rfl)
  | Except.error a, Except.error b =>
    if h : a = b then isTrue (by rw [h]) else isFalse (fun hc => by cases hc; exact h rfl)
  | Except.ok _, Except.error _ => isFalse (fun hc => by cases hc)
  | Except.error _, Except.ok _ => isFalse (fun hc => by cases hc)

/-- An incoming HTTP request, as seen by Flask handlers: `request.method`,
`request.path`, `request.remote_addr`. -/
structure Request where
  method : String
  path : String
  remote_addr : String
deriving DecidableEq

/-- An outgoing HTTP response: `response.status_code` and its body. -/
structure Response where
  status_code : Nat
  body : String
deriving DecidableEq

/-- A JSON scalar value as it appears in one emitted log object. -/
inductive JVal where
  | s (v : String)
  | n (v : Nat)
  | null
deriving DecidableEq

/-- One emitted JSON log object: an ordered list of key/value pairs. -/
abbrev JRecord := List (String × JVal)

/-- Field lookup in an emitted JSON object (first occurrence of the key). -/
def getKey (r : JRecord) (key : String) : Option JVal :=
  (r.find? (fun p => p.1 == key)).map Prod.snd

/-- Conversion of `Option String` into a JSON value: Python `None`
serialises to JSON `null`. -/
def optJ : Option String → JVal
  | none => JVal.null
  | some v => JVal.s v

/-- The JSON formatter configured on line 93:
`jsonlogger.JsonFormatter` with format string
`%(asctime)s %(levelname)s %(message)s`. python-json-logger parses the
format string into the required fields `asctime`, `levelname`, `message`
(those exact attribute names become the JSON keys; no `rename_fields` is
passed) and then appends the `extra` fields of the logging call. -/
def jsonFormatter (asctime levelname message : String)
    (extra : JRecord) : JRecord :=
  ("asctime", JVal.s asctime) :: ("levelname", JVal.s levelname) ::
    ("message", JVal.s message) :: extra

/-- The stream of the root-logger handler installed on line 92:
`logging.StreamHandler()` is constructed without an argument, and the
Python standard library documents that the default stream is `sys.stderr`. -/
def logHandler_stream : String := "stderr"

/-! ### Hex rendering: the Python expression `format(trace_id, &032x&)` -/

/-- Big-endian base-16 digit characters of a positive number, by repeated
division; the first argument is structural fuel (any bound on the number
suffices, see `hexLoop_eq_digits`). -/
def hexLoop : Nat → Nat → List Char
  | _, 0 => []
  | 0, _ + 1 => []
  | fuel + 1, n + 1 => hexLoop fuel ((n + 1) / 16) ++ [Nat.digitChar ((n + 1) % 16)]

/-- The lowercase hex digit characters of `t`, most significant first;
`0` renders as the single character `0`, matching Python `format(0, &x&)`. -/
def hexDigitsOf (t : Nat) : List Char :=
  if t = 0 then ['0'] else hexLoop t t

/-- The Python expression `format(t, &032x&)` from line 166: the lowercase
hex rendering of `t`, left-padded with `0` to a minimum width of 32. -/
def format032x (t : Nat) : String :=
  String.mk (List.replicate (32 - (hexDigitsOf t).length) '0' ++ hexDigitsOf t)

/-- Numeric value of a lowercase hex digit character. -/
def hexVal (c : Char) : Nat :=
  if c.isDigit then c.toNat - 48
  else if 'a' ≤ c ∧ c ≤ 'f' then c.toNat - 97 + 10
  else 0

/-- Reading a hex string back into a number, most significant digit first. -/
def parseHex (s : String) : Nat :=
  s.data.foldl (fun a c => 16 * a + hexVal c) 0

/-- Big-endian valuation of a base-16 digit list. -/
def valBE : List Nat → Nat
  | [] => 0
  | d :: ds => d * 16 ^ ds.length + valBE ds

/-- Recognises the sixteen lowercase hexadecimal digit characters. -/
def isLowerHex (c : Char) : Bool :=
  (('0' ≤ c) && (c ≤ '9')) || (('a' ≤ c) && (c ≤ 'f'))

/-! ### The process environment and the request pipeline -/

/-- Ambient process state the handlers read:
  * `uname j` is the value `os.uname()[1]` returns at its j-th call since
    process start (the OS host identity, constant in practice);
  * `trace_id` is the identifier of the ambient OpenTelemetry span context
    for the current request, with `0` the invalid ("no active context")
    sentinel, exactly as read on lines 163-164;
  * `asctime` is the formatted wall-clock time the formatter inserts;
  * `metrics_response` is the response of the PrometheusMetrics-owned
    `/metrics` endpoint (external collaborator);
  * `default_response` is the response Flask produces for an unmatched
    route or method (external collaborator). -/
structure Env where
  uname : Nat → String
  trace_id : Nat
  asctime : String
  metrics_response : Response
  default_response : Response

/-- The `after_request` hook `log_request` (lines 142-179). Takes the
uname call counter `k` and returns the response, the emitted log records
and the new counter. Mirrors the source: requests whose path is
`/metrics` are skipped (lines 152-153); otherwise the ambient trace id is
read and rendered as 32-zero-padded hex, or `None` when it is the zero
sentinel (lines 163-166); then one INFO record `Request processed` is
emitted with the extra fields of lines 171-176 (the `hostname` field is a
fresh `os.uname()[1]` call). -/
def log_request (env : Env) (k : Nat) (req : Request) (response : Response) :
    Response × List JRecord × Nat :=
  if req.path = "/metrics" then (response, [], k)
  else
    let trace_id := env.trace_id
    let trace_id_hex := if trace_id ≠ 0 then some (format032x trace_id) else none
    let hostname := env.uname k
    let record := jsonFormatter env.asctime "INFO" "Request processed"
      [("method", JVal.s req.method), ("path", JVal.s req.path),
       ("status", JVal.n response.status_code), ("hostname", JVal.s hostname),
       ("ip", JVal.s req.remote_addr), ("trace_id", optJ trace_id_hex)]
    (response, [record], k + 1)

/-- The root handler `hello_world` (lines 189-197): resolves
`os.uname()[1]` and returns the greeting; Flask turns a bare string
return into a 200 response. -/
def hello_world (env : Env) (k : Nat) : Response × List JRecord × Nat :=
  let hostname := env.uname k
  ({ status_code := 200,
     body := "Hello, World! I am running on host: " ++ hostname ++ "\n" },
   [], k + 1)

/-- The handler `trigger_error` (lines 199-212): emits one explicit ERROR
record with the custom marker field `custom_field` (line 211) and returns
the pair of body and status 500 (line 212). -/
def trigger_error (env : Env) (k : Nat) : Response × List JRecord × Nat :=
  let record := jsonFormatter env.asctime "ERROR" "Specific error logic triggered"
    [("custom_field", JVal.s "something_bad")]
  ({ status_code := 500, body := "This is a test error" }, [record], k)

/-- Route dispatch: the two `@app.route` registrations (lines 189 and 199,
GET only by default), the `/metrics` endpoint owned by PrometheusMetrics
(line 113), and the Flask default response otherwise. -/
def dispatch (env : Env) (k : Nat) (req : Request) :
    Response × List JRecord × Nat :=
  if req.path = "/" ∧ req.method = "GET" then hello_world env k
  else if req.path = "/error" ∧ req.method = "GET" then trigger_error env k
  else if req.path = "/metrics" ∧ req.method = "GET" then
    (env.metrics_response, [], k)
  else (env.default_response, [], k)

/-- One full request: the route handler runs first, then Flask applies the
`after_request` hook `log_request` to the produced response. -/
def handle (env : Env) (k : Nat) (req : Request) :
    Response × List JRecord × Nat :=
  let d := dispatch env k req
  let l := log_request env d.2.2 req d.1
  (l.1, d.2.1 ++ l.2.1, l.2.2)

/-- A sequence of requests served by one process, threading the uname
call counter; returns all emitted log records in order. -/
def runRequests (env : Env) : Nat → List Request → List JRecord × Nat
  | k, [] => ([], k)
  | k, r :: rs =>
    let h := handle env k r
    let rest := runRequests env h.2.2 rs
    (h.2.1 ++ rest.1, rest.2)

/-! ### The exception-level model of the observability path -/

/-- The `after_request` hook again, now at the exception level, with the
fallible external calls explicit:
  * `get_trace` models `trace.get_current_span().get_span_context().trace_id`
    (lines 163-164), which may raise;
  * `uname` models `os.uname()[1]` (line 174), evaluated by the caller
    while building the `extra` dictionary, which may raise `OSError`;
  * `write_ok` tells whether the handler emit succeeds; the Python logging
    library catches all exceptions of `Handler.emit` (`Handler.handleError`
    reports and returns), so a failed write loses the record but never
    raises.
The source contains no try/except, so a failure of either lookup
propagates out of the hook in program order: trace lookup first, then the
uname call. -/
def log_request_exc (asctime : String) (get_trace : Except String Nat)
    (uname : Except String String) (write_ok : Bool)
    (req : Request) (resp : Response) :
    Except String (Response × List JRecord) :=
  if req.path = "/metrics" then Except.ok (resp, [])
  else
    match get_trace with
    | Except.error e => Except.error e
    | Except.ok trace_id =>
      let trace_id_hex := if trace_id ≠ 0 then some (format032x trace_id) else none
      match uname with
      | Except.error e => Except.error e
      | Except.ok hostname =>
        let record := jsonFormatter asctime "INFO" "Request processed"
          [("method", JVal.s req.method), ("path", JVal.s req.path),
           ("status", JVal.n resp.status_code), ("hostname", JVal.s hostname),
           ("ip", JVal.s req.remote_addr), ("trace_id", optJ trace_id_hex)]
        Except.ok (resp, if write_ok then [record] else [])

/-! ### Startup port parsing: `int(os.environ.get(&PORT&, 8080))` -/

/-- Digit run of a Python decimal integer literal after its first digit:
single underscores are allowed between digits, a trailing or doubled
underscore is invalid. The flag records whether the previous character
was an underscore. -/
def digitsRun : Nat → Bool → List Char → Option Nat
  | acc, afterUnd, [] => if afterUnd then none else some acc
  | acc, afterUnd, c :: cs =>
    if c.isDigit then digitsRun (10 * acc + (c.toNat - 48)) false cs
    else if c = '_' then (if afterUnd then none else digitsRun acc true cs)
    else none

/-- A nonempty digit sequence (with optional internal underscores); the
first character must be a digit. -/
def parseDigits : List Char → Option Nat
  | [] => none
  | c :: cs => if c.isDigit then digitsRun (c.toNat - 48) false cs else none

/-- The whitespace characters Python `int` strips. -/
def isPySpace (c : Char) : Bool :=
  c = ' ' || c = '\t' || c = '\n' || c = '\x0d' || c = '\x0b' || c = '\x0c'

/-- Python `int(s)` on a string: strip whitespace, optional sign, then a
decimal digit run; anything else raises `ValueError`. -/
def py_int (s : String) : Except String Int :=
  let cs := (((s.data.dropWhile isPySpace).reverse.dropWhile isPySpace)).reverse
  match cs with
  | '+' :: rest =>
    match parseDigits rest with
    | some v => Except.ok (Int.ofNat v)
    | none => Except.error "ValueError"
  | '-' :: rest =>
    match parseDigits rest with
    | some v => Except.ok (-(Int.ofNat v))
    | none => Except.error "ValueError"
  | rest =>
    match parseDigits rest with
    | some v => Except.ok (Int.ofNat v)
    | none => Except.error "ValueError"

/-- The startup expression `int(os.environ.get(&PORT&, 8080))` (line 218):
when `PORT` is absent the default is the Python integer `8080` (so `int`
is applied to an int and returns it); when `PORT` is present, `int` is
applied to its string value and raises on an invalid literal. -/
def startup_port (envPORT : Option String) : Except String Int :=
  match envPORT with
  | none => Except.ok 8080
  | some s => py_int s

/-! ### Facts about the hex rendering -/

theorem hexLoop_eq_digits :
    ∀ (fuel n : Nat), n ≤ fuel →
      hexLoop fuel n = ((Nat.digits 16 n).map Nat.digitChar).reverse := by
  intro fuel
  induction fuel with
  | zero =>
    intro n hn
    interval_cases n
    simp [hexLoop]
  | succ fuel ih =>
    intro n hn
    match n with
    | 0 => simp [hexLoop]
    | m + 1 =>
      have hdiv : (m + 1) / 16 ≤ fuel := by
        have : (m + 1) / 16 < m + 1 := Nat.div_lt_self (Nat.succ_pos m) (by norm_num)
        omega
      rw [show hexLoop (fuel + 1) (m + 1)
            = hexLoop fuel ((m + 1) / 16) ++ [Nat.digitChar ((m + 1) % 16)] from rfl]
      rw [Nat.digits_def' (by norm_num : (1 : Nat) < 16) (Nat.succ_pos m)]
      rw [List.map_cons, List.reverse_cons, ih _ hdiv]

theorem hexDigitsOf_eq (t : Nat) (ht : t ≠ 0) :
    hexDigitsOf t = ((Nat.digits 16 t).map Nat.digitChar).reverse := by
  rw [hexDigitsOf, if_neg ht]
  exact hexLoop_eq_digits t t le_rfl

theorem hexDigitsOf_length (t : Nat) (ht : t ≠ 0) :
    (hexDigitsOf t).length = (Nat.digits 16 t).length := by
  rw [hexDigitsOf_eq t ht, List.length_reverse, List.length_map]

theorem format032x_length (t : Nat) :
    (format032x t).length = max 32 (hexDigitsOf t).length := by
  have : (format032x t).length
      = (List.replicate (32 - (hexDigitsOf t).length) '0' ++ hexDigitsOf t).length := rfl
  rw [this, List.length_append, List.length_replicate]
  omega

theorem digits16_len_le_32_iff (t : Nat) (ht : t ≠ 0) :
    (Nat.digits 16 t).length ≤ 32 ↔ t < 2 ^ 128 := by
  have h16 : (16 : Nat) ^ 32 = 2 ^ 128 := by
    rw [show (16 : Nat) = 2 ^ 4 from rfl, ← pow_mul]
  rw [Nat.digits_len 16 t (by norm_num) ht, ← h16,
    Nat.lt_pow_iff_log_lt (by norm_num) ht]
  omega

theorem format032x_length_eq_32 (t : Nat) (ht : t < 2 ^ 128) :
    (format032x t).length = 32 := by
  by_cases h0 : t = 0
  · subst h0; decide
  · rw [format032x_length, hexDigitsOf_length t h0]
    have := (digits16_len_le_32_iff t h0).mpr ht
    omega

theorem hexVal_digitChar (d : Nat) (hd : d < 16) :
    hexVal (Nat.digitChar d) = d := by
  interval_cases d <;> decide

theorem isLowerHex_digitChar (d : Nat) (hd : d < 16) :
    isLowerHex (Nat.digitChar d) = true := by
  interval_cases d <;> decide

theorem foldl_hex_map (ds : List Nat) (h : ∀ d ∈ ds, d < 16) (a : Nat) :
    (ds.map Nat.digitChar).foldl (fun a c => 16 * a + hexVal c) a
      = ds.foldl (fun a d => 16 * a + d) a := by
  induction ds generalizing a with
  | nil => rfl
  | cons d ds ih =>
    rw [List.map_cons, List.foldl_cons, List.foldl_cons,
      hexVal_digitChar d (h d (List.mem_cons_self d ds))]
    exact ih (fun x hx => h x (List.mem_cons_of_mem d hx)) _

theorem foldl_mul_add (ds : List Nat) (a : Nat) :
    ds.foldl (fun a d => 16 * a + d) a = a * 16 ^ ds.length + valBE ds := by
  induction ds generalizing a with
  | nil => simp [valBE]
  | cons d ds ih =>
    rw [List.foldl_cons, ih, valBE, List.length_cons]
    ring

theorem valBE_append (ds : List Nat) (d : Nat) :
    valBE (ds ++ [d]) = 16 * valBE ds + d := by
  induction ds with
  | nil => simp [valBE]
  | cons x xs ih =>
    show x * 16 ^ (xs ++ [d]).length + valBE (xs ++ [d])
      = 16 * (x * 16 ^ xs.length + valBE xs) + d
    rw [ih, List.length_append, List.length_singleton, pow_succ]
    ring

theorem valBE_reverse (L : List Nat) : valBE L.reverse = Nat.ofDigits 16 L := by
  induction L with
  | nil => rfl
  | cons d ds ih =>
    rw [List.reverse_cons, valBE_append, ih, Nat.ofDigits_cons]
    ring

theorem foldl_replicate_zero (n : Nat) :
    (List.replicate n '0').foldl (fun a c => 16 * a + hexVal c) 0 = 0 := by
  induction n with
  | zero => rfl
  | succ n ih => rw [List.replicate_succ, List.foldl_cons]; simpa using ih

theorem parseHex_format032x (t : Nat) : parseHex (format032x t) = t := by
  by_cases h0 : t = 0
  · subst h0; decide
  · have hdata : (format032x t).data
        = List.replicate (32 - (hexDigitsOf t).length) '0' ++ hexDigitsOf t := rfl
    rw [parseHex, hdata, List.foldl_append, foldl_replicate_zero,
      hexDigitsOf_eq t h0, ← List.map_reverse,
      foldl_hex_map _ (fun d hd => Nat.digits_lt_base (by norm_num)
        (List.mem_reverse.mp hd)), foldl_mul_add, valBE_reverse,
      Nat.ofDigits_digits]
    simp

theorem format032x_isLowerHex (t : Nat) :
    ∀ c ∈ (format032x t).data, isLowerHex c = true := by
  intro c hc
  have hdata : (format032x t).data
      = List.replicate (32 - (hexDigitsOf t).length) '0' ++ hexDigitsOf t := rfl
  rw [hdata, List.mem_append] at hc
  rcases hc with hc | hc
  · rw [List.eq_of_mem_replicate hc]; decide
  · by_cases h0 : t = 0
    · subst h0
      rw [show hexDigitsOf 0 = ['0'] from rfl, List.mem_singleton] at hc
      rw [hc]; decide
    · rw [hexDigitsOf_eq t h0, List.mem_reverse, List.mem_map] at hc
      obtain ⟨d, hd, rfl⟩ := hc
      exact isLowerHex_digitChar d (Nat.digits_lt_base (by norm_num) hd)

/-! ### Concrete fixtures used by the witnesses -/

/-- A concrete process environment: constant host identity, an active
trace context with identifier 1. -/
def envA : Env :=
  { uname := fun _ => "test-host", trace_id := 1,
    asctime := "2026-01-01 00:00:00",
    metrics_response := { status_code := 200, body := "metrics" },
    default_response := { status_code := 404, body := "Not Found" } }

/-- A concrete GET request for the root path. -/
def reqRoot : Request :=
  { method := "GET", path := "/", remote_addr := "203.0.113.7" }

/-- A concrete 200 response. -/
def respRoot : Response := { status_code := 200, body := "Hello" }

/-! ### The claims -/

/-- Claim C1: for every completed request whose path is not `/metrics`, the
observer emits exactly one structured record whose method, path and status
fields equal the actual request method and path and the actual response
status; for a request whose path is `/metrics`, it emits no record. -/
theorem claim_C1 (env : Env) (k : Nat) (req : Request) (resp : Response) :
    (req.path ≠ "/metrics" →
      ∃ r, (log_request env k req resp).2.1 = [r] ∧
        getKey r "method" = some (JVal.s req.method) ∧
        getKey r "path" = some (JVal.s req.path) ∧
        getKey r "status" = some (JVal.n resp.status_code)) ∧
    (req.path = "/metrics" → (log_request env k req resp).2.1 = []) := by
  constructor
  · intro h
    simp only [log_request, if_neg h]
    exact ⟨_, rfl, rfl, rfl, rfl⟩
  · intro h
    simp only [log_request, if_pos h]

theorem claim_C1_witness :
    ∃ r, (log_request envA 0 reqRoot respRoot).2.1 = [r] ∧
      getKey r "method" = some (JVal.s reqRoot.method) ∧
      getKey r "path" = some (JVal.s reqRoot.path) ∧
      getKey r "status" = some (JVal.n respRoot.status_code) :=
  (claim_C1 envA 0 reqRoot respRoot).1 (by decide)

/-- Claim C2: in every emitted request record, when no trace context is
active (the identifier equals the zero sentinel) the `trace_id` field is
JSON null, never the all-zero hex string; when a context with identifier
`t`, `0 < t < 2 ^ 128`, is active, the field is `t` rendered as exactly 32
lowercase hexadecimal characters, zero-padded and value-preserving. -/
theorem claim_C2 (env : Env) (k : Nat) (req : Request) (resp : Response)
    (hpath : req.path ≠ "/metrics") :
    (env.trace_id = 0 →
      ∃ r, (log_request env k req resp).2.1 = [r] ∧
        getKey r "trace_id" = some JVal.null ∧
        getKey r "trace_id" ≠ some (JVal.s (format032x 0))) ∧
    (0 < env.trace_id → env.trace_id < 2 ^ 128 →
      ∃ r, (log_request env k req resp).2.1 = [r] ∧
        getKey r "trace_id" = some (JVal.s (format032x env.trace_id)) ∧
        (format032x env.trace_id).length = 32 ∧
        (∀ c ∈ (format032x env.trace_id).data, isLowerHex c = true) ∧
        parseHex (format032x env.trace_id) = env.trace_id) := by
  constructor
  · intro h0
    have hcond : (if env.trace_id ≠ 0 then some (format032x env.trace_id) else none)
        = none := by
      rw [if_neg]
      simpa using h0
    simp only [log_request, if_neg hpath, hcond]
    refine ⟨_, rfl, rfl, ?_⟩
    intro hc
    exact JVal.noConfusion (Option.some.inj hc)
  · intro h1 h2
    have hne : env.trace_id ≠ 0 := Nat.pos_iff_ne_zero.mp h1
    simp only [log_request, if_neg hpath, if_pos hne]
    exact ⟨_, rfl, rfl, format032x_length_eq_32 _ h2,
      format032x_isLowerHex _, parseHex_format032x _⟩

theorem claim_C2_witness :
    ∃ r, (log_request envA 0 reqRoot respRoot).2.1 = [r] ∧
      getKey r "trace_id" = some (JVal.s (format032x envA.trace_id)) ∧
      (format032x envA.trace_id).length = 32 ∧
      (∀ c ∈ (format032x envA.trace_id).data, isLowerHex c = true) ∧
      parseHex (format032x envA.trace_id) = envA.trace_id :=
  (claim_C2 envA 0 reqRoot respRoot (by decide)).2 (by decide) (by decide)

/-- Claim C8: the observer returns the response object it was given, for
every request including one to `/metrics`: observation never changes the
response status or body. -/
theorem claim_C8 (env : Env) (k : Nat) (req : Request) (resp : Response) :
    (log_request env k req resp).1 = resp := by
  by_cases h : req.path = "/metrics" <;> simp only [log_request, h] <;> simp

/-- Claim C10: for a nonzero trace identifier `t` the rendered string has
length `max 32 d` where `d` is the number of base-16 digits of `t`; a
value at or above `2 ^ 128` renders longer than 32 characters with no
truncation (the rendering still reads back to `t`), and the 32-character
guarantee holds exactly under the precondition `t < 2 ^ 128`. -/
theorem claim_C10 (t : Nat) (ht : t ≠ 0) :
    (format032x t).length = max 32 (Nat.digits 16 t).length ∧
    (2 ^ 128 ≤ t → 32 < (format032x t).length) ∧
    (t < 2 ^ 128 → (format032x t).length = 32) ∧
    parseHex (format032x t) = t := by
  refine ⟨?_, ?_, fun h => format032x_length_eq_32 t h, parseHex_format032x t⟩
  · rw [format032x_length, hexDigitsOf_length t ht]
  · intro h
    rw [format032x_length, hexDigitsOf_length t ht]
    have hiff := digits16_len_le_32_iff t ht
    omega

theorem claim_C10_witness :
    (format032x 1).length = max 32 (Nat.digits 16 1).length ∧
    (2 ^ 128 ≤ 1 → 32 < (format032x 1).length) ∧
    (1 < 2 ^ 128 → (format032x 1).length = 32) ∧
    parseHex (format032x 1) = 1 :=
  claim_C10 1 (by decide)

/-- Claim C3 (amended): a log write failure is swallowed by the logging
subsystem and never alters the response; but the hook contains no handler
for a trace-context lookup failure or a host-identity resolution failure,
so such a failure propagates out of the hook instead of being degraded. -/
theorem claim_C3 (asctime : String) (t : Nat) (host : String) (w : Bool)
    (req : Request) (resp : Response) :
    (∃ logs, log_request_exc asctime (Except.ok t) (Except.ok host) w req resp
        = Except.ok (resp, logs)) ∧
    (∀ e, req.path ≠ "/metrics" →
      log_request_exc asctime (Except.error e) (Except.ok host) w req resp
        = Except.error e) ∧
    (∀ e, req.path ≠ "/metrics" →
      log_request_exc asctime (Except.ok t) (Except.error e) w req resp
        = Except.error e) := by
  refine ⟨?_, ?_, ?_⟩
  · by_cases hp : req.path = "/metrics"
    · exact ⟨[], by rw [log_request_exc, if_pos hp]⟩
    · exact ⟨_, by rw [log_request_exc, if_neg hp]⟩
  · intro e hp
    rw [log_request_exc, if_neg hp]
  · intro e hp
    rw [log_request_exc, if_neg hp]

theorem claim_C3_witness :
    (∃ logs, log_request_exc "ts" (Except.ok 5) (Except.ok "test-host") false
        reqRoot respRoot = Except.ok (respRoot, logs)) ∧
    log_request_exc "ts" (Except.error "OtelError") (Except.ok "test-host") false
        reqRoot respRoot = Except.error "OtelError" :=
  ⟨(claim_C3 "ts" 5 "test-host" false reqRoot respRoot).1,
   (claim_C3 "ts" 5 "test-host" false reqRoot respRoot).2.1 "OtelError" (by decide)⟩

/-- Claim C3 fails as stated: when the host-identity resolution raises, the
hook does not return the given response; the error propagates to the
request-handling path. -/
theorem claim_C3_counterexample :
    log_request_exc "ts" (Except.ok 0) (Except.error "OSError") true reqRoot respRoot
      = Except.error "OSError" := by decide

/-- Claim C4: every GET request to `/error` yields status exactly 500 with
body `This is a test error`, and exactly one additional explicit error
record carrying the custom marker field is emitted before the handler
returns, in addition to and independent of the automatic record. -/
theorem claim_C4 (env : Env) (k : Nat) (ip : String) :
    ∃ r1 r2,
      handle env k { method := "GET", path := "/error", remote_addr := ip }
        = ({ status_code := 500, body := "This is a test error" }, [r1, r2], k + 1) ∧
      getKey r1 "custom_field" = some (JVal.s "something_bad") ∧
      getKey r1 "levelname" = some (JVal.s "ERROR") ∧
      getKey r1 "message" = some (JVal.s "Specific error logic triggered") ∧
      getKey r2 "message" = some (JVal.s "Request processed") ∧
      getKey r2 "status" = some (JVal.n 500) ∧
      getKey r2 "custom_field" = none ∧
      getKey r1 "status" = none := by
  exact ⟨_, _, rfl, rfl, rfl, rfl, rfl, rfl, rfl, rfl⟩

/-- Claim C5: every GET request to `/` yields status exactly 200, body
`Hello, World! I am running on host: H` (with trailing newline) for the
value `H` the host-identity source reports at request time, and the
automatic record of the same request carries that same `H`. -/
theorem claim_C5 (env : Env) (k : Nat) (ip : String) (H : String)
    (huname : ∀ j, env.uname j = H) :
    (handle env k { method := "GET", path := "/", remote_addr := ip }).1.status_code
        = 200 ∧
    (handle env k { method := "GET", path := "/", remote_addr := ip }).1.body
        = "Hello, World! I am running on host: " ++ H ++ "\n" ∧
    ∃ r, (handle env k { method := "GET", path := "/", remote_addr := ip }).2.1 = [r] ∧
      getKey r "hostname" = some (JVal.s H) := by
  refine ⟨rfl, ?_, ⟨_, rfl, ?_⟩⟩
  · show "Hello, World! I am running on host: " ++ env.uname k ++ "\n" = _
    rw [huname k]
  · show some (JVal.s (env.uname (k + 1))) = some (JVal.s H)
    rw [huname (k + 1)]

theorem claim_C5_witness :
    (handle envA 0 { method := "GET", path := "/", remote_addr := "203.0.113.7" }).1.status_code
        = 200 ∧
    (handle envA 0 { method := "GET", path := "/", remote_addr := "203.0.113.7" }).1.body
        = "Hello, World! I am running on host: " ++ "test-host" ++ "\n" ∧
    ∃ r, (handle envA 0
        { method := "GET", path := "/", remote_addr := "203.0.113.7" }).2.1 = [r] ∧
      getKey r "hostname" = some (JVal.s "test-host") :=
  claim_C5 envA 0 "203.0.113.7" "test-host" (fun _ => rfl)

/-- Claim C6 (amended): every emitted request record is one JSON object,
written to the stream of the installed handler — standard error, the
`logging.StreamHandler()` default — whose keys are exactly `asctime`,
`levelname` (with value INFO), `message` (with value Request processed),
`method`, `path`, `status`, `hostname`, `ip`, and `trace_id`; the key
names `time` and `level` of the spec do not occur. -/
theorem claim_C6 (env : Env) (k : Nat) (req : Request) (resp : Response)
    (hpath : req.path ≠ "/metrics") :
    ∃ r, (log_request env k req resp).2.1 = [r] ∧
      r.map Prod.fst
        = ["asctime", "levelname", "message", "method", "path", "status",
           "hostname", "ip", "trace_id"] ∧
      getKey r "levelname" = some (JVal.s "INFO") ∧
      getKey r "message" = some (JVal.s "Request processed") ∧
      logHandler_stream = "stderr" := by
  simp only [log_request, if_neg hpath]
  exact ⟨_, rfl, rfl, rfl, rfl, rfl⟩

theorem claim_C6_witness :
    ∃ r, (log_request envA 0 reqRoot respRoot).2.1 = [r] ∧
      r.map Prod.fst
        = ["asctime", "levelname", "message", "method", "path", "status",
           "hostname", "ip", "trace_id"] ∧
      getKey r "levelname" = some (JVal.s "INFO") ∧
      getKey r "message" = some (JVal.s "Request processed") ∧
      logHandler_stream = "stderr" :=
  claim_C6 envA 0 reqRoot respRoot (by decide)

/-- Claim C6 fails as stated: the emitted record has no key `time` and no
key `level` (the configured formatter emits `asctime` and `levelname`),
and the installed handler stream is not standard output. -/
theorem claim_C6_counterexample :
    ((log_request envA 0 reqRoot respRoot).2.1.map (fun r => getKey r "time"))
        = [none] ∧
    ((log_request envA 0 reqRoot respRoot).2.1.map (fun r => getKey r "level"))
        = [none] ∧
    logHandler_stream ≠ "stdout" := by decide

/-- Hostname field of any record emitted by the after-request hook: it is
the value of the uname call made at the current counter. -/
theorem log_request_hostname (env : Env) (k : Nat) (req : Request) (resp : Response) :
    ∀ r ∈ (log_request env k req resp).2.1,
      getKey r "hostname" = some (JVal.s (env.uname k)) := by
  intro r hr
  by_cases h : req.path = "/metrics"
  · simp only [log_request, if_pos h] at hr
    exact absurd hr (List.not_mem_nil r)
  · simp only [log_request, if_neg h, List.mem_singleton] at hr
    subst hr
    rfl

/-- No record emitted by a route handler itself carries a hostname field. -/
theorem dispatch_hostname (env : Env) (k : Nat) (req : Request) :
    ∀ r ∈ (dispatch env k req).2.1, getKey r "hostname" = none := by
  intro r hr
  rw [dispatch] at hr
  split at hr
  · simp only [hello_world] at hr
    exact absurd hr (List.not_mem_nil r)
  · split at hr
    · simp only [trigger_error, List.mem_singleton] at hr
      subst hr
      rfl
    · split at hr <;> exact absurd hr (List.not_mem_nil r)

/-- Every record emitted while serving one request either has no hostname
field or carries the value of the uname call the hook made. -/
theorem handle_hostname (env : Env) (k : Nat) (req : Request) :
    ∀ r ∈ (handle env k req).2.1,
      getKey r "hostname" = none ∨
      getKey r "hostname"
        = some (JVal.s (env.uname (dispatch env k req).2.2)) := by
  intro r hr
  simp only [handle] at hr
  rw [List.mem_append] at hr
  rcases hr with hr | hr
  · exact Or.inl (dispatch_hostname env k req r hr)
  · exact Or.inr (log_request_hostname env _ req _ r hr)

/-- Claim C7 (amended): the host identity is re-resolved on each request
via `os.uname()` rather than queried once or cached; because the OS host
identity is constant during the process lifetime, every emitted record
that carries a hostname field still carries that same constant value. -/
theorem claim_C7 (env : Env) (H : String) (huname : ∀ j, env.uname j = H)
    (k : Nat) (reqs : List Request) :
    ∀ r ∈ (runRequests env k reqs).1,
      getKey r "hostname" = none ∨ getKey r "hostname" = some (JVal.s H) := by
  induction reqs generalizing k with
  | nil =>
    intro r hr
    exact absurd hr (List.not_mem_nil r)
  | cons q qs ih =>
    intro r hr
    simp only [runRequests] at hr
    rw [List.mem_append] at hr
    rcases hr with hr | hr
    · rcases handle_hostname env k q r hr with h | h
      · exact Or.inl h
      · right
        rw [h, huname]
    · exact ih _ r hr

/-- The single record emitted by one concrete request to the root path. -/
def recRoot : JRecord := (runRequests envA 0 [reqRoot]).1.headI

theorem claim_C7_witness :
    getKey recRoot "hostname" = none ∨
    getKey recRoot "hostname" = some (JVal.s "test-host") :=
  claim_C7 envA "test-host" (fun _ => rfl) 0 [reqRoot] recRoot (by decide)

/-- Claim C7 fails as stated: with a host-identity source whose j-th
resolution returns a distinct value, two successive requests to `/`
produce automatic records with different hostname values, so the host
identity is re-resolved on each request, not queried once or cached. -/
theorem claim_C7_counterexample :
    ((runRequests
        { envA with uname := fun j => String.mk (List.replicate j 'a') } 0
        [reqRoot, reqRoot]).1.map (fun r => getKey r "hostname"))
      = [some (JVal.s "a"), some (JVal.s "aaa")] ∧
    JVal.s "a" ≠ JVal.s "aaa" := by decide

/-- Claim C9: when the PORT environment variable holds a string on which
the Python int conversion fails, startup raises that error instead of
falling back to a default; the default port 8080 is produced exactly when
PORT is absent from the environment. -/
theorem claim_C9 (s e : String) (he : py_int s = Except.error e) :
    startup_port (some s) = Except.error e ∧
    startup_port (some s) ≠ Except.ok 8080 ∧
    startup_port none = Except.ok 8080 := by
  refine ⟨he, ?_, rfl⟩
  rw [show startup_port (some s) = py_int s from rfl, he]
  intro hc
  exact Except.noConfusion hc

theorem claim_C9_witness :
    startup_port (some "abc") = Except.error "ValueError" ∧
    startup_port (some "abc") ≠ Except.ok 8080 ∧
    startup_port none = Except.ok 8080 :=
  claim_C9 "abc" "ValueError" (by decide)

end App
